import Mathlib

/-!
Verification development for the Polymarket stop-loss bot
(`bot/position.py`, `bot/trading.py`, `bot/monitor.py`).

Python floats are modelled as rationals (ℚ), dictionaries as structures
with `Option` fields, raised exceptions as `Except.error`, and the
external CLOB venue as two oracles: `creds : Nat → Option String` giving
the outcome of the API-credential derivation performed by
`get_clob_client(force_new=True, signature_type=...)` (`none` = success,
`some m` = raised exception), and `venue : Nat → PostOutcome` giving the
venue's reaction to an order submission under each signature type.
-/

namespace PolymarketSL

/-- Substring test: `strContains s pat` is `pat in s` in Python. -/
def strContains (s pat : String) : Bool :=
  s.data.tails.any (fun t => pat.data.isPrefixOf t)

/-- Error classification in `close_position`:
`"No orderbook exists" in error_msg or "404" in error_msg`. -/
def isNoOrderbook (msg : String) : Bool :=
  strContains msg "No orderbook exists" || strContains msg "404"

/-- Python `str.lower()` (character-wise lowercasing). -/
def pyLower (s : String) : String := String.mk (s.data.map Char.toLower)

/-- `"invalid signature" in error_msg.lower()`. -/
def isInvalidSignature (msg : String) : Bool :=
  strContains (pyLower msg) "invalid signature"

/-- `"401" in error_msg or "Unauthorized" in error_msg or "Invalid api key" in error_msg`. -/
def isAuthError (msg : String) : Bool :=
  strContains msg "401" || strContains msg "Unauthorized" || strContains msg "Invalid api key"

/-- Banker's rounding to an integer (Python `round` ties-to-even), on ℚ. -/
def roundHalfEven (x : ℚ) : ℤ :=
  let f : ℤ := ⌊x⌋
  let frac : ℚ := x - f
  if frac < 1/2 then f
  else if 1/2 < frac then f + 1
  else if f % 2 = 0 then f else f + 1

/-- Python `round(x, 2)`. -/
def round2 (x : ℚ) : ℚ := (roundHalfEven (100 * x) : ℚ) / 100

/-- The venue's order-submission response, modelling the dict returned by
`post_order` / built by `close_position` (`success`, `orderID`, `order_id`,
`error` keys; `none` = key absent). -/
structure ApiResponse where
  success : Option Bool := none
  orderID : Option String := none
  order_id : Option String := none
  error : Option String := none
deriving DecidableEq

/-- What the venue does when an order is submitted under a given signature
type: return a response dict, or raise an exception with message `msg`
(covering both `create_market_order` and `post_order`). -/
inductive PostOutcome where
  | ok (resp : ApiResponse)
  | exn (msg : String)
deriving DecidableEq

/-- The failure dicts `close_position` builds: `{"success": False, "error": e}`. -/
def failResp (e : String) : ApiResponse :=
  { success := some false, error := some e }

/-- Termination measure for the signature-escalation recursion in
`close_position` (recursive calls go 1 → 0 → 2). -/
def sigRank (s : Nat) : Nat := if s = 1 then 2 else if s = 0 then 1 else 0

/-- Observable outcome of one `close_position` call: the Python return value
(`Except.error` models an uncaught raise), the signature types for which an
API-credential derivation was performed (`get_clob_client(force_new=True)`,
a network call made on every entry, before the size check), and the
signature types under which an order submission was attempted. -/
structure ExecOut where
  result : Except String ApiResponse
  credsCalls : List Nat
  submissions : List Nat

/-- `bot/trading.py close_position(token_id, size, signature_type=2)`.
Line order follows the source: the client is (re)built first — deriving API
credentials over the network, outside the `try`, so a failure there
propagates — then the size is rounded and checked, then the order is
submitted. -/
def close_position (creds : Nat → Option String) (venue : Nat → PostOutcome)
    (token_id : String) (size : ℚ) (signature_type : Nat) : ExecOut :=
  match creds signature_type with
  | some m =>
      { result := Except.error m, credsCalls := [signature_type], submissions := [] }
  | none =>
    let rounded_size := round2 size
    if rounded_size ≤ 0 then
      { result := Except.ok (failResp "Size too small"),
        credsCalls := [signature_type], submissions := [] }
    else
      match venue signature_type with
      | PostOutcome.ok resp =>
          { result := Except.ok resp, credsCalls := [signature_type],
            submissions := [signature_type] }
      | PostOutcome.exn msg =>
        if isNoOrderbook msg then
          { result := Except.ok (failResp "No active orderbook for this market"),
            credsCalls := [signature_type], submissions := [signature_type] }
        else if isInvalidSignature msg then
          if signature_type = 1 then
            let r := close_position creds venue token_id size 0
            { result := r.result, credsCalls := signature_type :: r.credsCalls,
              submissions := signature_type :: r.submissions }
          else if signature_type = 0 then
            let r := close_position creds venue token_id size 2
            { result := r.result, credsCalls := signature_type :: r.credsCalls,
              submissions := signature_type :: r.submissions }
          else
            { result := Except.ok (failResp ("Signature failed: " ++ msg)),
              credsCalls := [signature_type], submissions := [signature_type] }
        else if isAuthError msg then
          { result := Except.ok (failResp ("Authentication failed: " ++ msg)),
            credsCalls := [signature_type], submissions := [signature_type] }
        else
          { result := Except.error msg, credsCalls := [signature_type],
            submissions := [signature_type] }
termination_by sigRank signature_type
decreasing_by
  all_goals simp_all [sigRank]

/-- `bot/position.py calculate_stop_loss_trigger`. -/
def calculate_stop_loss_trigger (entry_price current_price stop_loss_pct : ℚ) :
    Bool × ℚ :=
  if entry_price ≤ 0 then (false, 0)
  else
    let price_drop_pct := (entry_price - current_price) / entry_price * 100
    (decide (stop_loss_pct ≤ price_drop_pct), price_drop_pct)

/-- A venue-reported position record (`bot/position.py get_positions` item). -/
structure Position where
  asset : String
  avgPrice : ℚ
  curPrice : ℚ
  size : ℚ
  title : String
  outcome : String
deriving DecidableEq

/-- The `tracked_position` dict kept by `run_monitor` (`some` = non-empty dict). -/
structure TrackedPos where
  title : String
  outcome : String
  entry_price : ℚ
  last_price : ℚ
  size : ℚ
  token_id : String
deriving DecidableEq

/-- `cur_price > 0 and entry > 0` — the active-position filter of the loop. -/
def isActive (p : Position) : Bool :=
  decide (0 < p.curPrice) && decide (0 < p.avgPrice)

/-- The `for pos in positions: ... break` scan selecting the first active entry. -/
def firstActive (l : List Position) : Option Position := l.find? isActive

/-- Tracker classification outcome of one cycle. -/
inductive TrackerEvent where
  | noPositions
  | noValidPosition
  | newPosition (p : Position)
  | samePosition (p : Position)
deriving DecidableEq

/-- Classification performed by `run_monitor` lines 80–151: empty snapshot,
no active entry, or first active entry compared against
`current_position_id` (`token_id != current_position_id` means new). -/
def classify (positions : List Position) (current_position_id : Option String) :
    TrackerEvent :=
  if positions.isEmpty then TrackerEvent.noPositions
  else
    match firstActive positions with
    | none => TrackerEvent.noValidPosition
    | some p =>
      if current_position_id = some p.asset then TrackerEvent.samePosition p
      else TrackerEvent.newPosition p

/-- Notifications the loop can emit during one cycle. -/
inductive Notif where
  | positionClosed (tp : TrackedPos) (reason : String)
  | newPosition (title outcome : String) (entry size : ℚ)
  | stopLoss (success : Bool) (order_id : Option String)
  | err (msg : String)
deriving DecidableEq

/-- What `get_positions()` did this cycle: returned a snapshot, raised
`Timeout`, or raised another `RequestException` with message `msg`. -/
inductive FetchEv where
  | ok (positions : List Position)
  | timeout
  | netErr (msg : String)
deriving DecidableEq

/-- The loop-carried state of `run_monitor`. -/
structure BotState where
  current_position_id : Option String
  tracked_position : Option TrackedPos
  consecutive_errors : Nat
deriving DecidableEq

/-- Observable outcome of one loop cycle: new state, notifications emitted in
order, and the top-level `close_position` invocations (token, size). -/
structure CycleOut where
  state : BotState
  notifs : List Notif
  execCalls : List (String × ℚ)
deriving DecidableEq

/-- `MAX_RETRIES` in `bot/monitor.py`. -/
def MAX_RETRIES : Nat := 3

/-- Python `a or b` over the two order-id keys:
`result.get("orderID") or result.get("order_id")` (empty string is falsy). -/
def pyOr (a b : Option String) : Option String :=
  match a with
  | some s => if s = "" then b else some s
  | none => b

/-- `run_monitor` lines 195–201: extract the order id and decide success
(`success=False` key wins; otherwise order id present). -/
def orderSuccess (resp : ApiResponse) : Bool × Option String :=
  let order_id := pyOr resp.orderID resp.order_id
  (if resp.success = some false then false else order_id.isSome, order_id)

/-- The `tracked_position = {...}` assignment of `run_monitor` line 141. -/
def mkTracked (p : Position) : TrackedPos :=
  { title := p.title, outcome := p.outcome, entry_price := p.avgPrice,
    last_price := p.curPrice, size := p.size, token_id := p.asset }

/-- `run_monitor` lines 132–245: processing of the selected active position.
`isNew` is `token_id != current_position_id`. When the trigger fires,
`close_position` is called once; an `Except.error` result models an
exception (from credential derivation or the final `raise`) reaching the
outer generic handler (notify_error, no reset of `consecutive_errors`). -/
def processActive (stop_loss_pct : ℚ) (creds : Nat → Option String)
    (venue : Nat → PostOutcome) (s : BotState)
    (isNew : Bool) (p : Position) : CycleOut :=
  let tp := mkTracked p
  let cpid := if isNew then some p.asset else s.current_position_id
  let newNotifs : List Notif :=
    if isNew then [Notif.newPosition p.title p.outcome p.avgPrice p.size] else []
  let tr := calculate_stop_loss_trigger p.avgPrice p.curPrice stop_loss_pct
  if tr.1 then
    let r := close_position creds venue p.asset p.size 2
    match r.result with
    | Except.error msg =>
        { state := { current_position_id := cpid, tracked_position := some tp,
                     consecutive_errors := s.consecutive_errors },
          notifs := newNotifs ++ [Notif.err msg],
          execCalls := [(p.asset, p.size)] }
    | Except.ok resp =>
        let so := orderSuccess resp
        if so.1 then
          { state := { current_position_id := none, tracked_position := some tp,
                       consecutive_errors := 0 },
            notifs := newNotifs ++ [Notif.stopLoss so.1 so.2],
            execCalls := [(p.asset, p.size)] }
        else
          let emsg := resp.error.getD "Unknown error"
          { state := { current_position_id := cpid, tracked_position := some tp,
                       consecutive_errors := 0 },
            notifs := newNotifs ++ [Notif.stopLoss so.1 so.2] ++
              [Notif.err ("Failed to close position: " ++ emsg)],
            execCalls := [(p.asset, p.size)] }
  else
    { state := { current_position_id := cpid, tracked_position := some tp,
                 consecutive_errors := 0 },
      notifs := newNotifs, execCalls := [] }

/-- One iteration of the `while True` body of `run_monitor`. -/
def stepCycle (stop_loss_pct : ℚ) (creds : Nat → Option String)
    (venue : Nat → PostOutcome) (fetch : FetchEv)
    (s : BotState) : CycleOut :=
  match fetch with
  | FetchEv.timeout =>
      { state := { s with consecutive_errors := s.consecutive_errors + 1 },
        notifs := [], execCalls := [] }
  | FetchEv.netErr msg =>
      let ce := s.consecutive_errors + 1
      { state := { s with consecutive_errors := ce },
        notifs := if MAX_RETRIES ≤ ce then [Notif.err ("Network issues: " ++ msg)]
                  else [],
        execCalls := [] }
  | FetchEv.ok positions =>
      match classify positions s.current_position_id with
      | TrackerEvent.noPositions =>
          if s.current_position_id.isSome then
            { state := { current_position_id := none, tracked_position := none,
                         consecutive_errors := 0 },
              notifs := match s.tracked_position with
                | some tp => [Notif.positionClosed tp "Position Closed"]
                | none => [],
              execCalls := [] }
          else
            { state := { s with consecutive_errors := 0 },
              notifs := [], execCalls := [] }
      | TrackerEvent.noValidPosition =>
          if s.current_position_id.isSome then
            { state := { s with current_position_id := none, tracked_position := none },
              notifs := match s.tracked_position with
                | some tp => [Notif.positionClosed tp "Market Resolved"]
                | none => [],
              execCalls := [] }
          else
            { state := s, notifs := [], execCalls := [] }
      | TrackerEvent.newPosition p => processActive stop_loss_pct creds venue s true p
      | TrackerEvent.samePosition p => processActive stop_loss_pct creds venue s false p

/-- Recognizes the new-position notification. -/
def isNewPosNotif : Notif → Bool
  | Notif.newPosition _ _ _ _ => true
  | _ => false

/-- Recognizes an error notification (`notify_error`). -/
def isErrNotif : Notif → Bool
  | Notif.err _ => true
  | _ => false

/-- The state the loop starts in. -/
def initState : BotState :=
  { current_position_id := none, tracked_position := none, consecutive_errors := 0 }

/-- Run several consecutive cycles, concatenating observations. -/
def runCycles (stop_loss_pct : ℚ) (creds : Nat → Option String)
    (venue : Nat → PostOutcome) (s : BotState) :
    List FetchEv → CycleOut
  | [] => { state := s, notifs := [], execCalls := [] }
  | f :: fs =>
      let o := stepCycle stop_loss_pct creds venue f s
      let rest := runCycles stop_loss_pct creds venue o.state fs
      { state := rest.state, notifs := o.notifs ++ rest.notifs,
        execCalls := o.execCalls ++ rest.execCalls }

/-! ## Unfolding lemmas for `close_position` -/

set_option maxHeartbeats 2000000 in
theorem cp_credsFail (creds : Nat → Option String) (venue : Nat → PostOutcome)
    (t : String) (z : ℚ) (sig : Nat) (m : String) (hc : creds sig = some m) :
    close_position creds venue t z sig =
      { result := Except.error m, credsCalls := [sig], submissions := [] } := by
  rw [close_position.eq_def]
  simp only [hc]

set_option maxHeartbeats 400000 in
theorem cp_small (creds : Nat → Option String) (venue : Nat → PostOutcome)
    (t : String) (z : ℚ) (sig : Nat)
    (hc : creds sig = none) (h : round2 z ≤ 0) :
    close_position creds venue t z sig =
      { result := Except.ok (failResp "Size too small"),
        credsCalls := [sig], submissions := [] } := by
  rw [close_position.eq_def]
  simp only [hc, if_pos h]

set_option maxHeartbeats 400000 in
theorem cp_ok (creds : Nat → Option String) (venue : Nat → PostOutcome)
    (t : String) (z : ℚ) (sig : Nat) (resp : ApiResponse)
    (hc : creds sig = none) (h : ¬ round2 z ≤ 0)
    (hv : venue sig = PostOutcome.ok resp) :
    close_position creds venue t z sig =
      { result := Except.ok resp, credsCalls := [sig], submissions := [sig] } := by
  rw [close_position.eq_def]
  simp only [hc, if_neg h, hv]

set_option maxHeartbeats 400000 in
theorem cp_noBook (creds : Nat → Option String) (venue : Nat → PostOutcome)
    (t : String) (z : ℚ) (sig : Nat) (m : String)
    (hc : creds sig = none) (h : ¬ round2 z ≤ 0) (hv : venue sig = PostOutcome.exn m)
    (h1 : isNoOrderbook m = true) :
    close_position creds venue t z sig =
      { result := Except.ok (failResp "No active orderbook for this market"),
        credsCalls := [sig], submissions := [sig] } := by
  rw [close_position.eq_def]
  simp only [hc, if_neg h, hv, h1, if_true]

set_option maxHeartbeats 400000 in
theorem cp_sigTerm (creds : Nat → Option String) (venue : Nat → PostOutcome)
    (t : String) (z : ℚ) (sig : Nat) (m : String)
    (hc : creds sig = none) (h : ¬ round2 z ≤ 0) (hv : venue sig = PostOutcome.exn m)
    (h1 : isNoOrderbook m = false) (h2 : isInvalidSignature m = true)
    (hs1 : sig ≠ 1) (hs0 : sig ≠ 0) :
    close_position creds venue t z sig =
      { result := Except.ok (failResp ("Signature failed: " ++ m)),
        credsCalls := [sig], submissions := [sig] } := by
  rw [close_position.eq_def]
  simp only [hc, if_neg h, hv, h1, h2, if_neg hs1, if_neg hs0, Bool.false_eq_true,
    if_false, if_true]

set_option maxHeartbeats 400000 in
theorem cp_sig1 (creds : Nat → Option String) (venue : Nat → PostOutcome)
    (t : String) (z : ℚ) (m : String)
    (hc : creds 1 = none) (h : ¬ round2 z ≤ 0) (hv : venue 1 = PostOutcome.exn m)
    (h1 : isNoOrderbook m = false) (h2 : isInvalidSignature m = true) :
    close_position creds venue t z 1 =
      { result := (close_position creds venue t z 0).result,
        credsCalls := 1 :: (close_position creds venue t z 0).credsCalls,
        submissions := 1 :: (close_position creds venue t z 0).submissions } := by
  rw [close_position.eq_def]
  simp only [hc, if_neg h, hv, h1, h2, Bool.false_eq_true, if_false, if_true]

set_option maxHeartbeats 400000 in
theorem cp_sig0 (creds : Nat → Option String) (venue : Nat → PostOutcome)
    (t : String) (z : ℚ) (m : String)
    (hc : creds 0 = none) (h : ¬ round2 z ≤ 0) (hv : venue 0 = PostOutcome.exn m)
    (h1 : isNoOrderbook m = false) (h2 : isInvalidSignature m = true) :
    close_position creds venue t z 0 =
      { result := (close_position creds venue t z 2).result,
        credsCalls := 0 :: (close_position creds venue t z 2).credsCalls,
        submissions := 0 :: (close_position creds venue t z 2).submissions } := by
  rw [close_position.eq_def]
  simp only [hc, if_neg h, hv, h1, h2, Bool.false_eq_true, if_false, if_true]
  simp

set_option maxHeartbeats 400000 in
theorem cp_auth (creds : Nat → Option String) (venue : Nat → PostOutcome)
    (t : String) (z : ℚ) (sig : Nat) (m : String)
    (hc : creds sig = none) (h : ¬ round2 z ≤ 0) (hv : venue sig = PostOutcome.exn m)
    (h1 : isNoOrderbook m = false) (h2 : isInvalidSignature m = false)
    (h3 : isAuthError m = true) :
    close_position creds venue t z sig =
      { result := Except.ok (failResp ("Authentication failed: " ++ m)),
        credsCalls := [sig], submissions := [sig] } := by
  rw [close_position.eq_def]
  simp only [hc, if_neg h, hv, h1, h2, h3, Bool.false_eq_true, if_false, if_true]

set_option maxHeartbeats 400000 in
theorem cp_raise (creds : Nat → Option String) (venue : Nat → PostOutcome)
    (t : String) (z : ℚ) (sig : Nat) (m : String)
    (hc : creds sig = none) (h : ¬ round2 z ≤ 0) (hv : venue sig = PostOutcome.exn m)
    (h1 : isNoOrderbook m = false) (h2 : isInvalidSignature m = false)
    (h3 : isAuthError m = false) :
    close_position creds venue t z sig =
      { result := Except.error m, credsCalls := [sig], submissions := [sig] } := by
  rw [close_position.eq_def]
  simp only [hc, if_neg h, hv, h1, h2, h3, Bool.false_eq_true, if_false]

/-! ## Attempt-trace lemmas for the escalation chain -/

theorem trace_term (creds : Nat → Option String) (venue : Nat → PostOutcome)
    (t : String) (z : ℚ) (sig : Nat) (hs1 : sig ≠ 1) (hs0 : sig ≠ 0) :
    (close_position creds venue t z sig).submissions = [] ∨
      (close_position creds venue t z sig).submissions = [sig] := by
  cases hcr : creds sig with
  | some m => left; rw [cp_credsFail creds venue t z sig m hcr]
  | none =>
    by_cases h : round2 z ≤ 0
    · left; rw [cp_small creds venue t z sig hcr h]
    · cases hv : venue sig with
      | ok resp => right; rw [cp_ok creds venue t z sig resp hcr h hv]
      | exn m =>
        cases h1 : isNoOrderbook m with
        | true => right; rw [cp_noBook creds venue t z sig m hcr h hv h1]
        | false =>
          cases h2 : isInvalidSignature m with
          | true => right; rw [cp_sigTerm creds venue t z sig m hcr h hv h1 h2 hs1 hs0]
          | false =>
            cases h3 : isAuthError m with
            | true => right; rw [cp_auth creds venue t z sig m hcr h hv h1 h2 h3]
            | false => right; rw [cp_raise creds venue t z sig m hcr h hv h1 h2 h3]

theorem trace_sig0 (creds : Nat → Option String) (venue : Nat → PostOutcome)
    (t : String) (z : ℚ) :
    (close_position creds venue t z 0).submissions = [] ∨
      (close_position creds venue t z 0).submissions = [0] ∨
      (close_position creds venue t z 0).submissions = [0, 2] := by
  cases hcr : creds 0 with
  | some m => left; rw [cp_credsFail creds venue t z 0 m hcr]
  | none =>
    by_cases h : round2 z ≤ 0
    · left; rw [cp_small creds venue t z 0 hcr h]
    · cases hv : venue 0 with
      | ok resp => right; left; rw [cp_ok creds venue t z 0 resp hcr h hv]
      | exn m =>
        cases h1 : isNoOrderbook m with
        | true => right; left; rw [cp_noBook creds venue t z 0 m hcr h hv h1]
        | false =>
          cases h2 : isInvalidSignature m with
          | true =>
            rw [cp_sig0 creds venue t z m hcr h hv h1 h2]
            rcases trace_term creds venue t z 2 (by decide) (by decide) with h4 | h4 <;>
              rw [h4]
            · right; left; rfl
            · right; right; rfl
          | false =>
            cases h3 : isAuthError m with
            | true => right; left; rw [cp_auth creds venue t z 0 m hcr h hv h1 h2 h3]
            | false => right; left; rw [cp_raise creds venue t z 0 m hcr h hv h1 h2 h3]

theorem trace_sig1 (creds : Nat → Option String) (venue : Nat → PostOutcome)
    (t : String) (z : ℚ) :
    (close_position creds venue t z 1).submissions = [] ∨
      (close_position creds venue t z 1).submissions = [1] ∨
      (close_position creds venue t z 1).submissions = [1, 0] ∨
      (close_position creds venue t z 1).submissions = [1, 0, 2] := by
  cases hcr : creds 1 with
  | some m => left; rw [cp_credsFail creds venue t z 1 m hcr]
  | none =>
    by_cases h : round2 z ≤ 0
    · left; rw [cp_small creds venue t z 1 hcr h]
    · cases hv : venue 1 with
      | ok resp => right; left; rw [cp_ok creds venue t z 1 resp hcr h hv]
      | exn m =>
        cases h1 : isNoOrderbook m with
        | true => right; left; rw [cp_noBook creds venue t z 1 m hcr h hv h1]
        | false =>
          cases h2 : isInvalidSignature m with
          | true =>
            rw [cp_sig1 creds venue t z m hcr h hv h1 h2]
            rcases trace_sig0 creds venue t z with h4 | h4 | h4 <;> rw [h4]
            · right; left; rfl
            · right; right; left; rfl
            · right; right; right; rfl
          | false =>
            cases h3 : isAuthError m with
            | true => right; left; rw [cp_auth creds venue t z 1 m hcr h hv h1 h2 h3]
            | false => right; left; rw [cp_raise creds venue t z 1 m hcr h hv h1 h2 h3]

/-- Every call makes at most 3 submission attempts and never repeats a method. -/
theorem trace_nodup_len (creds : Nat → Option String) (venue : Nat → PostOutcome)
    (t : String) (z : ℚ) (sig : Nat) :
    ((close_position creds venue t z sig).submissions).Nodup ∧
      (close_position creds venue t z sig).submissions.length ≤ 3 := by
  by_cases hs1 : sig = 1
  · subst hs1
    rcases trace_sig1 creds venue t z with h | h | h | h <;> rw [h] <;>
      exact ⟨by decide, by decide⟩
  · by_cases hs0 : sig = 0
    · subst hs0
      rcases trace_sig0 creds venue t z with h | h | h <;> rw [h] <;>
        exact ⟨by decide, by decide⟩
    · rcases trace_term creds venue t z sig hs1 hs0 with h | h <;> rw [h]
      · exact ⟨List.nodup_nil, by simp⟩
      · exact ⟨List.nodup_singleton sig, by simp⟩

/-! ## Classification lemmas -/

theorem isActive_iff (p : Position) :
    isActive p = true ↔ 0 < p.curPrice ∧ 0 < p.avgPrice := by
  simp [isActive]

theorem firstActive_nil : firstActive [] = none := rfl

theorem firstActive_append (l₁ l₂ : List Position) (p : Position)
    (h₁ : ∀ q ∈ l₁, isActive q = false) (hp : isActive p = true) :
    firstActive (l₁ ++ p :: l₂) = some p := by
  induction l₁ with
  | nil => simpa [firstActive] using List.find?_cons_of_pos l₂ hp
  | cons q l ih =>
    have hq : isActive q = false := h₁ q (List.mem_cons_self q l)
    have h2 : firstActive (l ++ p :: l₂) = some p :=
      ih (fun r hr => h₁ r (List.mem_cons_of_mem q hr))
    rw [List.cons_append]
    show List.find? isActive (q :: (l ++ p :: l₂)) = some p
    rw [List.find?_cons_of_neg _ (by simp [hq])]
    exact h2

theorem firstActive_eq_none (l : List Position)
    (h : ∀ p ∈ l, isActive p = false) : firstActive l = none := by
  apply List.find?_eq_none.mpr
  intro p hp
  simp [h p hp]

theorem classify_nil (t : Option String) : classify [] t = TrackerEvent.noPositions := rfl

theorem classify_noValid (l : List Position) (t : Option String) (hne : l ≠ [])
    (h : firstActive l = none) : classify l t = TrackerEvent.noValidPosition := by
  simp [classify, h, hne]

theorem classify_some (l : List Position) (t : Option String) (p : Position)
    (h : firstActive l = some p) :
    classify l t = if t = some p.asset then TrackerEvent.samePosition p
                   else TrackerEvent.newPosition p := by
  have hne : l ≠ [] := by
    rintro rfl
    simp [firstActive] at h
  simp [classify, h, hne]

/-! ## Cycle-step lemmas -/

theorem step_ok_nil (slPct : ℚ) (creds : Nat → Option String)
    (venue : Nat → PostOutcome) (s : BotState) :
    stepCycle slPct creds venue (FetchEv.ok []) s =
      if s.current_position_id.isSome then
        { state := { current_position_id := none, tracked_position := none,
                     consecutive_errors := 0 },
          notifs := match s.tracked_position with
            | some tp => [Notif.positionClosed tp "Position Closed"]
            | none => [],
          execCalls := [] }
      else
        { state := { s with consecutive_errors := 0 }, notifs := [], execCalls := [] } := by
  by_cases h : s.current_position_id.isSome <;>
    simp [stepCycle, classify_nil, h]

theorem step_ok_noValid (slPct : ℚ) (creds : Nat → Option String)
    (venue : Nat → PostOutcome) (s : BotState)
    (l : List Position) (hne : l ≠ []) (hfa : firstActive l = none) :
    stepCycle slPct creds venue (FetchEv.ok l) s =
      if s.current_position_id.isSome then
        { state := { s with current_position_id := none, tracked_position := none },
          notifs := match s.tracked_position with
            | some tp => [Notif.positionClosed tp "Market Resolved"]
            | none => [],
          execCalls := [] }
      else
        { state := s, notifs := [], execCalls := [] } := by
  by_cases h : s.current_position_id.isSome <;>
    simp [stepCycle, classify_noValid l s.current_position_id hne hfa, h]

theorem step_ok_active (slPct : ℚ) (creds : Nat → Option String)
    (venue : Nat → PostOutcome) (s : BotState)
    (l : List Position) (p : Position) (hfa : firstActive l = some p) :
    stepCycle slPct creds venue (FetchEv.ok l) s =
      if s.current_position_id = some p.asset then
        processActive slPct creds venue s false p
      else processActive slPct creds venue s true p := by
  have hc := classify_some l s.current_position_id p hfa
  by_cases ht : s.current_position_id = some p.asset
  · rw [ht] at hc
    simp only [if_pos rfl] at hc
    simp [stepCycle, ht, hc]
  · rw [if_neg ht] at hc
    simp [stepCycle, ht, hc]

theorem processActive_noTrigger (slPct : ℚ) (creds : Nat → Option String)
    (venue : Nat → PostOutcome) (s : BotState)
    (isNew : Bool) (p : Position)
    (htr : (calculate_stop_loss_trigger p.avgPrice p.curPrice slPct).1 = false) :
    processActive slPct creds venue s isNew p =
      { state := { current_position_id := if isNew then some p.asset
                     else s.current_position_id,
                   tracked_position := some (mkTracked p), consecutive_errors := 0 },
        notifs := if isNew then [Notif.newPosition p.title p.outcome p.avgPrice p.size]
                  else [],
        execCalls := [] } := by
  simp [processActive, htr]

theorem processActive_trigger (slPct : ℚ) (creds : Nat → Option String)
    (venue : Nat → PostOutcome) (s : BotState)
    (isNew : Bool) (p : Position) (resp : ApiResponse)
    (htr : (calculate_stop_loss_trigger p.avgPrice p.curPrice slPct).1 = true)
    (hcp : (close_position creds venue p.asset p.size 2).result = Except.ok resp) :
    processActive slPct creds venue s isNew p =
      if (orderSuccess resp).1 then
        { state := { current_position_id := none,
                     tracked_position := some (mkTracked p), consecutive_errors := 0 },
          notifs := (if isNew then [Notif.newPosition p.title p.outcome p.avgPrice p.size]
                     else []) ++
            [Notif.stopLoss (orderSuccess resp).1 (orderSuccess resp).2],
          execCalls := [(p.asset, p.size)] }
      else
        { state := { current_position_id := if isNew then some p.asset
                       else s.current_position_id,
                     tracked_position := some (mkTracked p), consecutive_errors := 0 },
          notifs := (if isNew then [Notif.newPosition p.title p.outcome p.avgPrice p.size]
                     else []) ++
            [Notif.stopLoss (orderSuccess resp).1 (orderSuccess resp).2] ++
            [Notif.err ("Failed to close position: " ++ resp.error.getD "Unknown error")],
          execCalls := [(p.asset, p.size)] } := by
  by_cases hs : (orderSuccess resp).1 <;>
    simp [processActive, htr, hcp, hs]

theorem processActive_raise (slPct : ℚ) (creds : Nat → Option String)
    (venue : Nat → PostOutcome) (s : BotState)
    (isNew : Bool) (p : Position) (m : String)
    (htr : (calculate_stop_loss_trigger p.avgPrice p.curPrice slPct).1 = true)
    (hcp : (close_position creds venue p.asset p.size 2).result = Except.error m) :
    processActive slPct creds venue s isNew p =
      { state := { current_position_id := if isNew then some p.asset
                     else s.current_position_id,
                   tracked_position := some (mkTracked p),
                   consecutive_errors := s.consecutive_errors },
        notifs := (if isNew then [Notif.newPosition p.title p.outcome p.avgPrice p.size]
                   else []) ++ [Notif.err m],
        execCalls := [(p.asset, p.size)] } := by
  simp [processActive, htr, hcp]

/-! ## Claims -/

/-- Claim C2: for `entry_price ≤ 0` the trigger calculator returns
`(false, 0.0)`; for `entry_price > 0` it returns the signed drop percentage
`(entry_price - current_price) / entry_price * 100` (negative when in
profit), and triggers exactly when the drop reaches the threshold, with the
boundary inclusive. -/
theorem C2_trigger_calculator (e c t : ℚ) :
    (e ≤ 0 → calculate_stop_loss_trigger e c t = (false, 0)) ∧
    (0 < e →
      (calculate_stop_loss_trigger e c t).2 = (e - c) / e * 100 ∧
      ((calculate_stop_loss_trigger e c t).1 = true ↔ t ≤ (e - c) / e * 100)) := by
  constructor
  · intro h
    simp [calculate_stop_loss_trigger, h]
  · intro h
    have h2 : ¬ e ≤ 0 := not_le.mpr h
    exact ⟨by simp [calculate_stop_loss_trigger, h2], by simp [calculate_stop_loss_trigger, h2]⟩

/-- Witness for C2, the spec's end-to-end scenarios 1 and 2:
entry 0.65, current 0.55, threshold 10 triggers at drop 200/13 ≈ 15.38;
entry 0.65, current 0.60 does not trigger. -/
theorem C2_trigger_calculator_witness :
    (calculate_stop_loss_trigger (65/100) (55/100) 10).1 = true ∧
    (calculate_stop_loss_trigger (65/100) (55/100) 10).2 = 200/13 ∧
    (calculate_stop_loss_trigger (65/100) (60/100) 10).1 = false := by
  have h1 := (C2_trigger_calculator (65/100) (55/100) 10).2 (by norm_num)
  have h2 := (C2_trigger_calculator (65/100) (60/100) 10).2 (by norm_num)
  refine ⟨h1.2.mpr (by norm_num), ?_, ?_⟩
  · rw [h1.1]; norm_num
  · rw [Bool.eq_false_iff]
    intro hc
    have := h2.2.mp hc
    norm_num at this

/-- Counterexample to C5 as stated: even at size 0 (`round(size,2) ≤ 0`) the
call first runs `get_clob_client(force_new=True, ...)`, a credential-derivation
network call made before the size check — so the network-call trace is `[2]`,
not empty — and when that call raises, the exception propagates instead of
the promised `success=False` size-too-small response. -/
theorem C5_counterexample :
    (close_position (fun _ => none) (fun _ => PostOutcome.ok {})
      "tok" 0 2).credsCalls = [2] ∧
    (close_position (fun _ => none) (fun _ => PostOutcome.ok {})
      "tok" 0 2).credsCalls ≠ [] ∧
    (close_position (fun _ => some "ConnectionError") (fun _ => PostOutcome.ok {})
      "tok" 0 2).result = Except.error "ConnectionError" := by
  have h1 := cp_small (fun _ => none) (fun _ => PostOutcome.ok {}) "tok" 0 2 rfl
    (by norm_num [round2, roundHalfEven])
  have h2 := cp_credsFail (fun _ => some "ConnectionError") (fun _ => PostOutcome.ok {})
    "tok" 0 2 "ConnectionError" rfl
  rw [h1, h2]
  exact ⟨rfl, by simp, rfl⟩

/-- Claim C5 (amended): when the size rounded to 2 decimals is `≤ 0` and the
client initialization succeeds, `close_position` fails immediately with
`success=False` and the "Size too small" error and submits no order to the
venue; the API-credential-derivation network call is still made (exactly
once, before the size check), and if it raises the exception propagates. -/
theorem C5_size_guard (creds : Nat → Option String) (venue : Nat → PostOutcome)
    (t : String) (z : ℚ) (sig : Nat) (m : String) (h : round2 z ≤ 0) :
    (creds sig = none →
      (close_position creds venue t z sig).result =
        Except.ok (failResp "Size too small") ∧
      (close_position creds venue t z sig).submissions = [] ∧
      (close_position creds venue t z sig).credsCalls = [sig]) ∧
    (creds sig = some m →
      (close_position creds venue t z sig).result = Except.error m ∧
      (close_position creds venue t z sig).submissions = [] ∧
      (close_position creds venue t z sig).credsCalls = [sig]) := by
  constructor
  · intro hc
    rw [cp_small creds venue t z sig hc h]
    exact ⟨rfl, rfl, rfl⟩
  · intro hc
    rw [cp_credsFail creds venue t z sig m hc]
    exact ⟨rfl, rfl, rfl⟩

/-- Witness for C5 (amended) at size 0 with successful client initialization. -/
theorem C5_size_guard_witness :
    (close_position (fun _ => none) (fun _ => PostOutcome.ok {}) "tok" 0 2).result =
      Except.ok (failResp "Size too small") ∧
    (close_position (fun _ => none) (fun _ => PostOutcome.ok {})
      "tok" 0 2).submissions = [] ∧
    (close_position (fun _ => none) (fun _ => PostOutcome.ok {})
      "tok" 0 2).credsCalls = [2] :=
  (C5_size_guard (fun _ => none) (fun _ => PostOutcome.ok {}) "tok" 0 2 ""
    (by norm_num [round2, roundHalfEven])).1 rfl

/-- Claim C7: the reported outcome is `success=true` exactly when the venue
response carries an order identifier (`orderID` or `order_id`, Python-`or`
semantics) and no explicit `success=False` flag; a response with no order
identifier and no error is reported as failure. -/
theorem C7_success_reporting (resp : ApiResponse) :
    ((orderSuccess resp).1 = true ↔
      ((pyOr resp.orderID resp.order_id).isSome ∧ resp.success ≠ some false)) ∧
    (resp.orderID = none → resp.order_id = none → resp.error = none →
      (orderSuccess resp).1 = false) := by
  constructor
  · by_cases h : resp.success = some false <;> simp [orderSuccess, h]
  · intro h1 h2 _
    simp [orderSuccess, pyOr, h1, h2]

/-- Witness for C7: an order id with no error reports success; no order id
and no error reports failure. -/
theorem C7_success_reporting_witness :
    (orderSuccess { orderID := some "0x1" }).1 = true ∧
    (orderSuccess {}).1 = false := by
  constructor
  · exact ((C7_success_reporting { orderID := some "0x1" }).1).mpr
      ⟨by simp [pyOr], by simp⟩
  · exact (C7_success_reporting {}).2 rfl rfl rfl

/-- Counterexample to C1 as stated: with every submission rejected for an
invalid signature, a call entered at the default Safe-proxy method
(`signature_type=2`) makes exactly one attempt, `[2]`, and never retries at
Direct-key (`0`), contradicting the claimed `Safe-proxy → Direct-key`
escalation. -/
theorem C1_counterexample :
    (close_position (fun _ => none) (fun _ => PostOutcome.exn "invalid signature")
      "tok" 1 2).submissions = [2] ∧
    (0 : Nat) ∉
      (close_position (fun _ => none) (fun _ => PostOutcome.exn "invalid signature")
        "tok" 1 2).submissions := by
  have h := cp_sigTerm (fun _ => none)
    (fun _ => PostOutcome.exn "invalid signature") "tok" 1 2
    "invalid signature" rfl (by norm_num [round2, roundHalfEven]) rfl (by decide)
    (by decide) (by decide) (by decide)
  rw [h]
  exact ⟨rfl, by decide⟩

/-- Claim C1 (amended): a call entered at the default Safe-proxy method
(`signature_type=2`) whose submission is rejected for an invalid signature
is immediately terminal — one attempt, no retry; escalation exists only for
Legacy-proxy entry (`1 → 0 → 2`) and Direct-key entry (`0 → 2`); every call
makes at most 3 submission attempts and never repeats an authorization
method. -/
theorem C1_escalation (creds : Nat → Option String) (venue : Nat → PostOutcome)
    (t : String) (z : ℚ) (m : String)
    (h : ¬ round2 z ≤ 0) (hcred : ∀ sig, creds sig = none)
    (hv2 : venue 2 = PostOutcome.exn m)
    (hnob : isNoOrderbook m = false) (hsig : isInvalidSignature m = true) :
    close_position creds venue t z 2 =
      { result := Except.ok (failResp ("Signature failed: " ++ m)),
        credsCalls := [2], submissions := [2] } ∧
    (venue 1 = PostOutcome.exn m → venue 0 = PostOutcome.exn m →
      (close_position creds venue t z 1).submissions = [1, 0, 2] ∧
      (close_position creds venue t z 0).submissions = [0, 2]) ∧
    (∀ sig, ((close_position creds venue t z sig).submissions).Nodup ∧
      (close_position creds venue t z sig).submissions.length ≤ 3) := by
  have h2 := cp_sigTerm creds venue t z 2 m (hcred 2) h hv2 hnob hsig
    (by decide) (by decide)
  refine ⟨h2, ?_, fun sig => trace_nodup_len creds venue t z sig⟩
  intro hv1 hv0
  have hzero := cp_sig0 creds venue t z m (hcred 0) h hv0 hnob hsig
  have hone := cp_sig1 creds venue t z m (hcred 1) h hv1 hnob hsig
  constructor
  · simp [hone, hzero, h2]
  · simp [hzero, h2]

/-- Witness for C1 (amended) with every submission signature-rejected:
entry at Legacy-proxy runs the full chain `[1, 0, 2]` without repeats. -/
theorem C1_escalation_witness :
    (close_position (fun _ => none) (fun _ => PostOutcome.exn "invalid signature")
      "t" 1 1).submissions = [1, 0, 2] ∧
    ((close_position (fun _ => none) (fun _ => PostOutcome.exn "invalid signature")
      "t" 1 1).submissions).Nodup := by
  have h := C1_escalation (fun _ => none)
    (fun _ => PostOutcome.exn "invalid signature") "t" 1 "invalid signature"
    (by norm_num [round2, roundHalfEven]) (fun _ => rfl) rfl (by decide) (by decide)
  refine ⟨(h.2.1 rfl rfl).1, ?_⟩
  rw [(h.2.1 rfl rfl).1]
  decide

/-- Claim C3: classification precedence — empty snapshot gives
`NoPositions`; a non-empty snapshot whose entries all have
`current_price ≤ 0` or `entry_price ≤ 0` gives `NoValidPosition`; otherwise
the first valid entry in venue order is selected, giving `SamePosition` when
its asset id matches the tracked one and `NewPosition` otherwise. -/
theorem C3_classification (l : List Position) (tracked : Option String) :
    (classify l tracked = TrackerEvent.noPositions ↔ l = []) ∧
    (l ≠ [] → (∀ p ∈ l, p.curPrice ≤ 0 ∨ p.avgPrice ≤ 0) →
      classify l tracked = TrackerEvent.noValidPosition) ∧
    (∀ l₁ p l₂, l = l₁ ++ p :: l₂ →
      (∀ q ∈ l₁, q.curPrice ≤ 0 ∨ q.avgPrice ≤ 0) →
      0 < p.curPrice → 0 < p.avgPrice →
      classify l tracked = if tracked = some p.asset then TrackerEvent.samePosition p
                           else TrackerEvent.newPosition p) := by
  refine ⟨⟨?_, ?_⟩, ?_, ?_⟩
  · intro h
    by_contra hne
    cases hfa : firstActive l with
    | none =>
      rw [classify_noValid l tracked hne hfa] at h
      exact TrackerEvent.noConfusion h
    | some p =>
      rw [classify_some l tracked p hfa] at h
      by_cases ht : tracked = some p.asset
      · rw [if_pos ht] at h; exact TrackerEvent.noConfusion h
      · rw [if_neg ht] at h; exact TrackerEvent.noConfusion h
  · rintro rfl
    exact classify_nil tracked
  · intro hne hall
    apply classify_noValid l tracked hne
    apply firstActive_eq_none
    intro p hp
    rcases hall p hp with h | h <;>
      simp [isActive, decide_eq_false (not_lt.mpr h)]
  · intro l₁ p l₂ hdec hinact hcur havg
    subst hdec
    apply classify_some
    apply firstActive_append
    · intro q hq
      rcases hinact q hq with h | h <;>
        simp [isActive, decide_eq_false (not_lt.mpr h)]
    · simp [isActive, hcur, havg]

/-- Witness for C3: a snapshot whose first entry is invalid and second is
valid selects the second as a new position; an empty snapshot and an
all-invalid snapshot classify as `NoPositions` / `NoValidPosition`. -/
theorem C3_classification_witness :
    classify [⟨"A", 0, 0, 5, "T", "YES"⟩, ⟨"B", 1, 1, 5, "U", "NO"⟩] none =
      TrackerEvent.newPosition ⟨"B", 1, 1, 5, "U", "NO"⟩ ∧
    classify [] none = TrackerEvent.noPositions ∧
    classify [⟨"A", 0, 0, 5, "T", "YES"⟩] (some "A") =
      TrackerEvent.noValidPosition := by
  have h := C3_classification
    [⟨"A", 0, 0, 5, "T", "YES"⟩, ⟨"B", 1, 1, 5, "U", "NO"⟩] none
  have h2 := C3_classification ([] : List Position) none
  have h3 := C3_classification [⟨"A", 0, 0, 5, "T", "YES"⟩] (some "A")
  refine ⟨?_, h2.1.mpr rfl, ?_⟩
  · have hmain := h.2.2 [⟨"A", 0, 0, 5, "T", "YES"⟩] ⟨"B", 1, 1, 5, "U", "NO"⟩ []
      rfl (by intro q hq; simp at hq; subst hq; left; norm_num)
      (by norm_num) (by norm_num)
    simpa using hmain
  · exact h3.2.1 (by simp)
      (by intro p hp; simp at hp; subst hp; left; norm_num)

/-- Claim C8: on a `NoPositions` or `NoValidPosition` cycle while a position
was tracked, the loop emits one position-closed notification built from the
last remembered snapshot and clears both the tracked id and the snapshot;
with nothing tracked, no notification is emitted. -/
theorem C8_closed_notification (slPct : ℚ) (creds : Nat → Option String)
    (venue : Nat → PostOutcome)
    (s : BotState) (l : List Position) (pid : String) (tp : TrackedPos) :
    (l = [] → s.current_position_id = some pid → s.tracked_position = some tp →
      stepCycle slPct creds venue (FetchEv.ok l) s =
        { state := { current_position_id := none, tracked_position := none,
                     consecutive_errors := 0 },
          notifs := [Notif.positionClosed tp "Position Closed"], execCalls := [] }) ∧
    (l ≠ [] → firstActive l = none →
      s.current_position_id = some pid → s.tracked_position = some tp →
      stepCycle slPct creds venue (FetchEv.ok l) s =
        { state := { current_position_id := none, tracked_position := none,
                     consecutive_errors := s.consecutive_errors },
          notifs := [Notif.positionClosed tp "Market Resolved"], execCalls := [] }) ∧
    (s.current_position_id = none → (l = [] ∨ firstActive l = none) →
      (stepCycle slPct creds venue (FetchEv.ok l) s).notifs = []) := by
  refine ⟨?_, ?_, ?_⟩
  · intro hl hid htp
    subst hl
    rw [step_ok_nil]
    simp [hid, htp]
  · intro hne hfa hid htp
    rw [step_ok_noValid slPct creds venue s l hne hfa]
    simp [hid, htp]
  · intro hid hor
    rcases hor with hl | hfa
    · subst hl
      rw [step_ok_nil]
      simp [hid]
    · by_cases hl : l = []
      · subst hl
        rw [step_ok_nil]
        simp [hid]
      · rw [step_ok_noValid slPct creds venue s l hl hfa]
        simp [hid]

/-- Witness for C8: an empty snapshot while tracking asset A emits exactly
one closed-position notification from the remembered snapshot and resets the
loop state. -/
theorem C8_closed_notification_witness :
    stepCycle 10 (fun _ => none) (fun _ => PostOutcome.ok {}) (FetchEv.ok [])
        { current_position_id := some "A",
          tracked_position := some ⟨"T", "YES", 1, 1, 5, "A"⟩,
          consecutive_errors := 5 } =
      { state := { current_position_id := none, tracked_position := none,
                   consecutive_errors := 0 },
        notifs := [Notif.positionClosed ⟨"T", "YES", 1, 1, 5, "A"⟩ "Position Closed"],
        execCalls := [] } :=
  (C8_closed_notification 10 (fun _ => none) (fun _ => PostOutcome.ok {})
    { current_position_id := some "A",
      tracked_position := some ⟨"T", "YES", 1, 1, 5, "A"⟩,
      consecutive_errors := 5 } [] "A" ⟨"T", "YES", 1, 1, 5, "A"⟩).1 rfl rfl rfl

/-- Claim C10: a `NoValidPosition` cycle leaves the consecutive-failure
counter unchanged, while the `NoPositions` path and every successfully
processed valid-position cycle (trigger not fired, or executor returning
normally) reset it to 0. -/
theorem C10_counter_frame (slPct : ℚ) (creds : Nat → Option String)
    (venue : Nat → PostOutcome)
    (s : BotState) (l : List Position) :
    (l ≠ [] → firstActive l = none →
      (stepCycle slPct creds venue (FetchEv.ok l) s).state.consecutive_errors =
        s.consecutive_errors) ∧
    (l = [] →
      (stepCycle slPct creds venue (FetchEv.ok l) s).state.consecutive_errors = 0) ∧
    (∀ p, firstActive l = some p →
      ((calculate_stop_loss_trigger p.avgPrice p.curPrice slPct).1 = false ∨
        (∃ resp, (close_position creds venue p.asset p.size 2).result =
          Except.ok resp)) →
      (stepCycle slPct creds venue (FetchEv.ok l) s).state.consecutive_errors = 0) := by
  refine ⟨?_, ?_, ?_⟩
  · intro hne hfa
    rw [step_ok_noValid slPct creds venue s l hne hfa]
    by_cases h : s.current_position_id.isSome <;> simp [h]
  · intro hl
    subst hl
    rw [step_ok_nil]
    by_cases h : s.current_position_id.isSome <;> simp [h]
  · intro p hfa hdisj
    rw [step_ok_active slPct creds venue s l p hfa]
    rcases Bool.eq_false_or_eq_true
        ((calculate_stop_loss_trigger p.avgPrice p.curPrice slPct).1) with htr | htr
    · rcases hdisj with htr' | ⟨resp, hcp⟩
      · rw [htr'] at htr
        exact Bool.noConfusion htr
      · by_cases ht : s.current_position_id = some p.asset <;>
          [rw [if_pos ht,
            processActive_trigger slPct creds venue s false p resp htr hcp];
           rw [if_neg ht,
            processActive_trigger slPct creds venue s true p resp htr hcp]] <;>
          by_cases hs : (orderSuccess resp).1 <;> simp [hs]
    · by_cases ht : s.current_position_id = some p.asset <;>
        simp [ht, processActive_noTrigger slPct creds venue s _ p htr]

/-- Witness for C10: a snapshot holding only an invalid entry keeps the
counter at 7; a valid non-triggering cycle resets it to 0. -/
theorem C10_counter_frame_witness :
    (stepCycle 10 (fun _ => none) (fun _ => PostOutcome.ok {})
        (FetchEv.ok [⟨"A", 0, 0, 5, "T", "Y"⟩])
        { current_position_id := none, tracked_position := none,
          consecutive_errors := 7 }).state.consecutive_errors = 7 ∧
    (stepCycle 10 (fun _ => none) (fun _ => PostOutcome.ok {})
        (FetchEv.ok [⟨"A", 1, 1, 5, "T", "Y"⟩])
        { current_position_id := none, tracked_position := none,
          consecutive_errors := 7 }).state.consecutive_errors = 0 := by
  constructor
  · exact (C10_counter_frame 10 (fun _ => none) (fun _ => PostOutcome.ok {})
      { current_position_id := none, tracked_position := none,
        consecutive_errors := 7 } [⟨"A", 0, 0, 5, "T", "Y"⟩]).1
      (by decide) (by decide)
  · exact (C10_counter_frame 10 (fun _ => none) (fun _ => PostOutcome.ok {})
      { current_position_id := none, tracked_position := none,
        consecutive_errors := 7 } [⟨"A", 1, 1, 5, "T", "Y"⟩]).2.2
      ⟨"A", 1, 1, 5, "T", "Y"⟩ (by decide)
      (Or.inl (by norm_num [calculate_stop_loss_trigger]))

/-- Claim C4: in a triggered cycle whose executor returns a result, the loop
makes exactly one liquidation attempt and transitions to IDLE (tracked id
cleared) exactly when the executor reports success; on reported failure the
tracked id remains the position's asset id. -/
theorem C4_liquidation_transition (slPct : ℚ) (creds : Nat → Option String)
    (venue : Nat → PostOutcome)
    (s : BotState) (l : List Position) (p : Position) (resp : ApiResponse)
    (hfa : firstActive l = some p)
    (htr : (calculate_stop_loss_trigger p.avgPrice p.curPrice slPct).1 = true)
    (hcp : (close_position creds venue p.asset p.size 2).result = Except.ok resp) :
    (stepCycle slPct creds venue (FetchEv.ok l) s).execCalls = [(p.asset, p.size)] ∧
    ((stepCycle slPct creds venue (FetchEv.ok l) s).state.current_position_id = none ↔
      (orderSuccess resp).1 = true) ∧
    ((orderSuccess resp).1 = false →
      (stepCycle slPct creds venue (FetchEv.ok l) s).state.current_position_id =
        some p.asset) := by
  rw [step_ok_active slPct creds venue s l p hfa]
  by_cases ht : s.current_position_id = some p.asset
  · rw [if_pos ht, processActive_trigger slPct creds venue s false p resp htr hcp]
    by_cases hs : (orderSuccess resp).1 <;> simp [hs, ht]
  · rw [if_neg ht, processActive_trigger slPct creds venue s true p resp htr hcp]
    by_cases hs : (orderSuccess resp).1 <;> simp [hs]

/-- Witness for C4: a triggered cycle (entry 2, current 1, threshold 10)
whose executor returns an order id makes one attempt and goes IDLE. -/
theorem C4_liquidation_transition_witness :
    (stepCycle 10 (fun _ => none) (fun _ => PostOutcome.ok ⟨none, some "oid", none, none⟩)
        (FetchEv.ok [⟨"A", 2, 1, 10, "T", "Y"⟩]) initState).state.current_position_id =
      none ∧
    (stepCycle 10 (fun _ => none) (fun _ => PostOutcome.ok ⟨none, some "oid", none, none⟩)
        (FetchEv.ok [⟨"A", 2, 1, 10, "T", "Y"⟩]) initState).execCalls = [("A", 10)] := by
  have h := C4_liquidation_transition 10 (fun _ => none)
    (fun _ => PostOutcome.ok ⟨none, some "oid", none, none⟩) initState
    [⟨"A", 2, 1, 10, "T", "Y"⟩] ⟨"A", 2, 1, 10, "T", "Y"⟩ ⟨none, some "oid", none, none⟩
    (by decide) (by norm_num [calculate_stop_loss_trigger])
    (by rw [cp_ok (fun _ => none)
      (fun _ => PostOutcome.ok ⟨none, some "oid", none, none⟩) "A" 10 2
      ⟨none, some "oid", none, none⟩ rfl (by norm_num [round2, roundHalfEven]) rfl])
  exact ⟨h.2.1.mpr (by decide), h.1⟩

theorem step_same_silent (slPct : ℚ) (creds : Nat → Option String)
    (venue : Nat → PostOutcome) (s : BotState)
    (l : List Position) (p : Position)
    (hfa : firstActive l = some p) (hid : s.current_position_id = some p.asset)
    (htr : (calculate_stop_loss_trigger p.avgPrice p.curPrice slPct).1 = false) :
    stepCycle slPct creds venue (FetchEv.ok l) s =
      { state := { current_position_id := some p.asset,
                   tracked_position := some (mkTracked p), consecutive_errors := 0 },
        notifs := [], execCalls := [] } := by
  rw [step_ok_active slPct creds venue s l p hfa, if_pos hid,
    processActive_noTrigger slPct creds venue s false p htr]
  simp [hid]

theorem run_same_silent (slPct : ℚ) (creds : Nat → Option String)
    (venue : Nat → PostOutcome)
    (l : List Position) (p : Position)
    (hfa : firstActive l = some p)
    (htr : (calculate_stop_loss_trigger p.avgPrice p.curPrice slPct).1 = false) :
    ∀ (n : Nat) (s : BotState), s.current_position_id = some p.asset →
      (runCycles slPct creds venue s (List.replicate n (FetchEv.ok l))).notifs = [] ∧
      (runCycles slPct creds venue s (List.replicate n (FetchEv.ok l))).execCalls = [] ∧
      (runCycles slPct creds venue s
        (List.replicate n (FetchEv.ok l))).state.current_position_id =
        some p.asset := by
  intro n
  induction n with
  | zero =>
    intro s hid
    simp [runCycles, hid]
  | succ k ih =>
    intro s hid
    have hstep := step_same_silent slPct creds venue s l p hfa hid htr
    have hrest := ih { current_position_id := some p.asset,
                       tracked_position := some (mkTracked p),
                       consecutive_errors := 0 } rfl
    rw [List.replicate_succ]
    simp only [runCycles, hstep]
    simp only [List.nil_append]
    exact hrest

/-- Claim C9: a `SamePosition` cycle never re-fires the new-position
notification, invokes the executor only when the trigger condition holds,
and with the trigger not holding, arbitrarily many repeated cycles on the
same snapshot emit no notification and make no executor call. -/
theorem C9_idempotence (slPct : ℚ) (creds : Nat → Option String)
    (venue : Nat → PostOutcome) (s : BotState)
    (l : List Position) (p : Position) (n : Nat)
    (hfa : firstActive l = some p) (hid : s.current_position_id = some p.asset) :
    (∀ x ∈ (stepCycle slPct creds venue (FetchEv.ok l) s).notifs,
      isNewPosNotif x = false) ∧
    ((stepCycle slPct creds venue (FetchEv.ok l) s).execCalls ≠ [] →
      (calculate_stop_loss_trigger p.avgPrice p.curPrice slPct).1 = true) ∧
    ((calculate_stop_loss_trigger p.avgPrice p.curPrice slPct).1 = false →
      (runCycles slPct creds venue s (List.replicate n (FetchEv.ok l))).notifs = [] ∧
      (runCycles slPct creds venue s
        (List.replicate n (FetchEv.ok l))).execCalls = []) := by
  refine ⟨?_, ?_, ?_⟩
  · rw [step_ok_active slPct creds venue s l p hfa, if_pos hid]
    rcases Bool.eq_false_or_eq_true
        ((calculate_stop_loss_trigger p.avgPrice p.curPrice slPct).1) with htr | htr
    · cases hcp : (close_position creds venue p.asset p.size 2).result with
      | ok resp =>
        rw [processActive_trigger slPct creds venue s false p resp htr hcp]
        by_cases hs : (orderSuccess resp).1 <;> simp [hs, isNewPosNotif]
      | error m =>
        rw [processActive_raise slPct creds venue s false p m htr hcp]
        simp [isNewPosNotif]
    · rw [processActive_noTrigger slPct creds venue s false p htr]
      simp
  · intro hne
    rcases Bool.eq_false_or_eq_true
        ((calculate_stop_loss_trigger p.avgPrice p.curPrice slPct).1) with htr | htr
    · exact htr
    · rw [step_same_silent slPct creds venue s l p hfa hid htr] at hne
      exact absurd rfl hne
  · intro htr
    exact ⟨(run_same_silent slPct creds venue l p hfa htr n s hid).1,
      (run_same_silent slPct creds venue l p hfa htr n s hid).2.1⟩

/-- Witness for C9: three repeated cycles on an unchanged, non-triggering
snapshot of the tracked asset are completely silent. -/
theorem C9_idempotence_witness :
    (runCycles 10 (fun _ => none) (fun _ => PostOutcome.ok {})
        { current_position_id := some "A",
          tracked_position := some (mkTracked ⟨"A", 1, 1, 5, "T", "Y"⟩),
          consecutive_errors := 0 }
        (List.replicate 3 (FetchEv.ok [⟨"A", 1, 1, 5, "T", "Y"⟩]))).notifs = [] ∧
    (runCycles 10 (fun _ => none) (fun _ => PostOutcome.ok {})
        { current_position_id := some "A",
          tracked_position := some (mkTracked ⟨"A", 1, 1, 5, "T", "Y"⟩),
          consecutive_errors := 0 }
        (List.replicate 3 (FetchEv.ok [⟨"A", 1, 1, 5, "T", "Y"⟩]))).execCalls = [] :=
  (C9_idempotence 10 (fun _ => none) (fun _ => PostOutcome.ok {})
    { current_position_id := some "A",
      tracked_position := some (mkTracked ⟨"A", 1, 1, 5, "T", "Y"⟩),
      consecutive_errors := 0 }
    [⟨"A", 1, 1, 5, "T", "Y"⟩] ⟨"A", 1, 1, 5, "T", "Y"⟩ 3 (by decide) rfl).2.2
    (by norm_num [calculate_stop_loss_trigger])

theorem run_netErr (slPct : ℚ) (creds : Nat → Option String)
    (venue : Nat → PostOutcome) (m : String) :
    ∀ (n : Nat) (s : BotState), 2 ≤ s.consecutive_errors →
      (runCycles slPct creds venue s (List.replicate n (FetchEv.netErr m))).notifs =
        List.replicate n (Notif.err ("Network issues: " ++ m)) ∧
      (runCycles slPct creds venue s
        (List.replicate n (FetchEv.netErr m))).state.consecutive_errors =
        s.consecutive_errors + n := by
  intro n
  induction n with
  | zero =>
    intro s h
    simp [runCycles]
  | succ k ih =>
    intro s h
    have hce : MAX_RETRIES ≤ s.consecutive_errors + 1 := by
      simp only [MAX_RETRIES]; omega
    have hrest := ih { s with consecutive_errors := s.consecutive_errors + 1 }
      (by simp; omega)
    rw [List.replicate_succ]
    simp only [runCycles, stepCycle, if_pos hce]
    refine ⟨?_, ?_⟩
    · rw [hrest.1, List.replicate_succ]
      simp
    · rw [hrest.2]
      simp
      omega

/-- Counterexample to C6 as stated: four consecutive non-timeout network
failures from a fresh state produce two error notifications (cycles 3 and
4), not at most one per run of consecutive failures. -/
theorem C6_counterexample :
    ((runCycles 10 (fun _ => none) (fun _ => PostOutcome.ok {}) initState
        (List.replicate 4 (FetchEv.netErr "boom"))).notifs.filter isErrNotif).length
      = 2 ∧
    ¬ (((runCycles 10 (fun _ => none) (fun _ => PostOutcome.ok {}) initState
        (List.replicate 4 (FetchEv.netErr "boom"))).notifs.filter isErrNotif).length
      ≤ 1) := by
  decide

/-- Claim C6 (amended): a non-timeout network-failure cycle emits no error
notification while the incremented counter is below the threshold
`MAX_RETRIES = 3`, and emits exactly one error notification on every such
cycle once the counter reaches the threshold — one per failing cycle, not
one per run — while the loop keeps retrying (the counter keeps growing, the
state is otherwise unchanged). -/
theorem C6_sustained_failure (slPct : ℚ) (creds : Nat → Option String)
    (venue : Nat → PostOutcome)
    (s : BotState) (m : String) (n : Nat) :
    (s.consecutive_errors + 1 < MAX_RETRIES →
      (stepCycle slPct creds venue (FetchEv.netErr m) s).notifs = []) ∧
    (MAX_RETRIES ≤ s.consecutive_errors + 1 →
      (stepCycle slPct creds venue (FetchEv.netErr m) s).notifs =
        [Notif.err ("Network issues: " ++ m)]) ∧
    (2 ≤ s.consecutive_errors →
      (runCycles slPct creds venue s (List.replicate n (FetchEv.netErr m))).notifs =
        List.replicate n (Notif.err ("Network issues: " ++ m)) ∧
      (runCycles slPct creds venue s
        (List.replicate n (FetchEv.netErr m))).state.consecutive_errors =
        s.consecutive_errors + n) := by
  refine ⟨?_, ?_, ?_⟩
  · intro h
    simp [stepCycle, Nat.not_le.mpr h]
  · intro h
    simp [stepCycle, if_pos h]
  · intro h
    exact run_netErr slPct creds venue m n s h

/-- Witness for C6 (amended): from a state with counter 2, two more failing
cycles emit one error notification each and raise the counter to 4. -/
theorem C6_sustained_failure_witness :
    (runCycles 10 (fun _ => none) (fun _ => PostOutcome.ok {})
        { current_position_id := none, tracked_position := none,
          consecutive_errors := 2 }
        (List.replicate 2 (FetchEv.netErr "x"))).notifs =
      List.replicate 2 (Notif.err ("Network issues: " ++ "x")) ∧
    (runCycles 10 (fun _ => none) (fun _ => PostOutcome.ok {})
        { current_position_id := none, tracked_position := none,
          consecutive_errors := 2 }
        (List.replicate 2 (FetchEv.netErr "x"))).state.consecutive_errors = 2 + 2 :=
  (C6_sustained_failure 10 (fun _ => none) (fun _ => PostOutcome.ok {})
    { current_position_id := none, tracked_position := none,
      consecutive_errors := 2 } "x" 2).2.2 (by decide)

end PolymarketSL
